import Mathlib

/-!
Verification development for the Grafana-to-TRMNL panel transformation service.

The definitions below are a shallow embedding of the Python source:
Python floats are modelled as exact rationals (`ℚ`), Python's `None` as an
explicit constructor, dictionaries as association lists in insertion order,
and JSON-like payloads as the inductive type `J`.  Functions keep the names
of the source functions (`service/grafana/models.py`,
`service/grafana/client.py`, `service/transformers/*.py`) up to Lean naming
restrictions.  Code that performs I/O (HTTP client plumbing) is out of
scope; the current UTC timestamp produced by `BaseTransformer._base_variables`
is modelled as an explicit `now : String` argument.
-/

/-! ## String helpers (models of Python `str` operations, over `List Char`) -/

/-- `leadsWith pat s` is true when `pat` is an initial segment of `s`
(model of Python's `str.startswith` used to implement `str.replace`). -/
def leadsWith : List Char → List Char → Bool
  | [], _ => true
  | _ :: _, [] => false
  | a :: as, b :: bs => a == b && leadsWith as bs

/-- `hasSub pat s` is true when `pat` occurs as a contiguous substring of `s`
(model of Python's `pat in s`). -/
def hasSub (pat : List Char) : List Char → Bool
  | [] => leadsWith pat []
  | c :: rest => leadsWith pat (c :: rest) || hasSub pat rest

/-- `str_contains s pat`: Python `pat in s`. -/
def str_contains (s pat : String) : Bool :=
  hasSub pat.data s.data

/-- Fuel-driven core of `str.replace`: replaces non-overlapping occurrences of
`pat` left to right.  The fuel is the length of the subject string, which
bounds the number of steps because every step consumes at least one
character. -/
def replFuel (pat rep : List Char) : Nat → List Char → List Char
  | _, [] => []
  | 0, s => s
  | fuel + 1, c :: rest =>
      if !pat.isEmpty && leadsWith pat (c :: rest) then
        rep ++ replFuel pat rep fuel ((c :: rest).drop pat.length)
      else
        c :: replFuel pat rep fuel rest

/-- Model of Python's `s.replace(pat, rep)` (for the non-empty patterns the
source uses). -/
def str_replace (s pat rep : String) : String :=
  String.mk (replFuel pat.data rep.data s.data.length s.data)

/-- Model of Python's `s.lower()` (ASCII range; the colour names and label
values the source lowercases are ASCII). -/
def str_lower (s : String) : String :=
  String.mk (s.data.map Char.toLower)

/-- Lexicographic `≤` on strings by code point, as Python compares `str`. -/
def str_le : List Char → List Char → Bool
  | [], _ => true
  | _ :: _, [] => false
  | a :: as, b :: bs =>
      if a == b then str_le as bs else decide (a < b)

/-- `str.title()`-style capitalisation used by `_format_column_name`
(`table.py`): the first cased character of each word is uppercased, the rest
lowercased; word boundaries are non-alphabetic characters (ASCII model). -/
def titleChars : Bool → List Char → List Char
  | _, [] => []
  | prevAlpha, c :: rest =>
      if c.isAlpha then
        (if prevAlpha then c.toLower else c.toUpper) :: titleChars true rest
      else
        c :: titleChars false rest

/-- Model of Python's `s.title()` (ASCII). -/
def str_title (s : String) : String :=
  String.mk (titleChars false s.data)

/-- Left-pads a digit string with zeros to width `k` (used when rendering the
fractional part of a float and `%H`/`%M` fields). -/
def padZeros (k : Nat) (s : String) : String :=
  if s.length < k then String.mk (List.replicate (k - s.length) '0') ++ s else s

/-! ## Python scalar values -/

/-- A Python scalar as it appears in Grafana data columns: `None`, `bool`,
`int`, `float` (modelled exactly as `ℚ`) or `str`. -/
inductive PyVal where
  | none
  | bool (b : Bool)
  | int (n : Int)
  | float (q : ℚ)
  | str (s : String)
deriving DecidableEq, Repr

/-- Model of `isinstance(v, (int, float))`.  Python's `bool` is a subclass of
`int`, so booleans satisfy the check. -/
def pyIsNum : PyVal → Bool
  | .int _ => true
  | .float _ => true
  | .bool _ => true
  | _ => false

/-- Numeric content of a value satisfying `pyIsNum` (Python arithmetic treats
`True`/`False` as `1`/`0`); other values map to `0` and are never used
numerically by the source. -/
def toRatN : PyVal → ℚ
  | .int n => n
  | .float q => q
  | .bool b => if b then 1 else 0
  | _ => 0

/-- Python `int(x)` on a float: truncation toward zero. -/
def pyTrunc (q : ℚ) : ℤ :=
  q.num.tdiv q.den

/-- Python `round(x)` with no `ndigits`: round half to even, returning `int`. -/
def pyRound0 (q : ℚ) : ℤ :=
  if q - ⌊q⌋ < 1/2 then ⌊q⌋
  else if (1 : ℚ)/2 < q - ⌊q⌋ then ⌊q⌋ + 1
  else if ⌊q⌋ % 2 = 0 then ⌊q⌋ else ⌊q⌋ + 1

/-- Python `round(x, d)` on a float, as an exact rational. -/
def py_round (q : ℚ) (d : Nat) : ℚ :=
  (pyRound0 (q * 10 ^ d) : ℚ) / 10 ^ d

/-- Number of decimal digits needed to write `q` exactly: the least `k ≤ 20`
with `den ∣ 10^k` (every float the source renders is a rounding result, whose
denominator divides a power of ten). -/
def fracDigitsCount (den : Nat) : Nat :=
  (((List.range 20).find? fun k => 10 ^ k % den == 0).getD 20)

/-- Rendering of a float by Python's `str`/f-string: sign, integer part, a
point, and the minimal number of fractional digits (at least one). -/
def renderFloat (q : ℚ) : String :=
  let sgn := if q.num < 0 then "-" else ""
  let d := q.den
  let k := max 1 (fracDigitsCount d)
  let scaled : Nat := q.num.natAbs * 10 ^ k / d
  sgn ++ toString (scaled / 10 ^ k) ++ "." ++ padZeros k (toString (scaled % 10 ^ k))

/-- Python `str(value)` on the scalars above. -/
def pyStr : PyVal → String
  | .none => "None"
  | .bool b => if b then "True" else "False"
  | .int n => toString n
  | .float q => renderFloat q
  | .str s => s

/-! ## JSON-like values (`Any` payloads handled with `.get`) -/

/-- A JSON-like Python value, used for raw API payloads and query specs. -/
inductive J where
  | null
  | bool (b : Bool)
  | int (n : Int)
  | float (q : ℚ)
  | str (s : String)
  | arr (xs : List J)
  | obj (kvs : List (String × J))

/-- Python truthiness of a JSON-like value. -/
def J.truthy : J → Bool
  | .null => false
  | .bool b => b
  | .int n => n != 0
  | .float q => decide (q ≠ 0)
  | .str s => s != ""
  | .arr xs => !xs.isEmpty
  | .obj kvs => !kvs.isEmpty

/-- `d.get(k)`: `none` when `d` has no such key (or is not a mapping). -/
def jGet : J → String → Option J
  | .obj kvs, k => kvs.lookup k
  | _, _ => Option.none

/-- `d.get(k, default)`. -/
def jGetD (o : J) (k : String) (dflt : J) : J :=
  (jGet o k).getD dflt

/-- Python's `a or b` on JSON-like values (returns `a` when truthy, else `b`). -/
def pyOr (a b : J) : J :=
  if a.truthy then a else b

example : str_replace "$__interval_ms" "$__interval" "1m" = "1m_ms" := rfl
example : str_contains "dark-green" "green" = true := rfl
example : str_lower "Dark-Red" = "dark-red" := rfl
example : str_title "service_name".data.asString = "Service_Name" := rfl
example : pyTrunc (85567/1000) = 85 := by
  norm_num [pyTrunc]
  decide
example : renderFloat (8557/100) = "85.57" := by
  have h1 : ((8557 : ℚ)/100).num = 8557 := by norm_num
  have h2 : ((8557 : ℚ)/100).den = 100 := by norm_num
  simp [renderFloat, h1, h2, fracDigitsCount]
  rfl

/-! ## Data models (`service/grafana/models.py`) -/

/-- One entry of `DataFrame.fields` as the transformers consume it: the keys
read via `field.get("name")`, `field.get("type")` and
`field.get("labels", {})`. -/
structure FrameField where
  name : Option String
  type : Option String
  labels : List (String × String)
deriving DecidableEq, Repr

/-- `DataFrame` (`models.py`): one named table/series; `values` is
column-major. -/
structure DataFrame where
  name : String
  fields : List FrameField
  values : List (List PyVal)
deriving DecidableEq, Repr

/-- The field-name set treated as time columns throughout `models.py`. -/
def timeNames : List String := ["Time", "time", "timestamp", "Timestamp"]

/-- `DataFrame.get_field_names` (`models.py`): `field.get("name", f"field_{i}")`. -/
def DataFrame.get_field_names (fr : DataFrame) : List String :=
  fr.fields.enum.map fun p => p.2.name.getD ("field_" ++ toString p.1)

/-- `DataFrame.get_values_by_field_name` (`models.py`): the first column whose
field carries the given name, provided the column index is in bounds. -/
def DataFrame.get_values_by_field_name (fr : DataFrame) (nm : String) : Option (List PyVal) :=
  (fr.fields.enum.find? fun p => p.2.name == some nm && decide (p.1 < fr.values.length)).bind
    fun p => fr.values.get? p.1

/-- `DataFrame.get_time_values` (`models.py`): first a field with
`type == "time"`, then the conventional time names, then the first column if
its first value is a number above `1_000_000_000`, else `[]`. -/
def DataFrame.get_time_values (fr : DataFrame) : List PyVal :=
  match (fr.fields.enum.find? fun p => p.2.type == some "time" && decide (p.1 < fr.values.length)).bind
      (fun p => fr.values.get? p.1) with
  | some col => col
  | Option.none =>
    match timeNames.findSome? fr.get_values_by_field_name with
    | some col => col
    | Option.none =>
      match fr.values with
      | [] => []
      | col :: _ =>
        match col with
        | [] => []
        | v :: _ => if pyIsNum v && decide (toRatN v > 1000000000) then col else []

/-- `DataFrame.get_value_fields` (`models.py`): the non-time `(name, column)`
pairs, in field order. -/
def DataFrame.get_value_fields (fr : DataFrame) : List (String × List PyVal) :=
  fr.fields.enum.filterMap fun p =>
    if p.2.type == some "time" then Option.none
    else
      let nm := p.2.name.getD ("field_" ++ toString p.1)
      if nm ∈ timeNames then Option.none
      else (fr.values.get? p.1).map fun col => (nm, col)

/-- Inner scan of `DataFrame.get_display_name` (`models.py`): the first
non-time field whose labels carry the requested key. -/
def findLabelValue (label_key : String) : List FrameField → Option String
  | [] => Option.none
  | f :: rest =>
      if f.name.getD "" ∈ timeNames then findLabelValue label_key rest
      else
        match f.labels.lookup label_key with
        | some v => some v
        | Option.none => findLabelValue label_key rest

/-- `DataFrame.get_display_name` (`models.py`): label value, else the frame
name unless it is a bare ref id `"A".."E"`, else `"Unknown"`. -/
def DataFrame.get_display_name (fr : DataFrame) (label_key : String) : String :=
  match findLabelValue label_key fr.fields with
  | some v => v
  | Option.none =>
      if fr.name ≠ "" ∧ fr.name ∉ ["A", "B", "C", "D", "E"] then fr.name else "Unknown"

/-- One step of `fieldConfig.defaults.thresholds.steps`:
`{value: number|null, color: string}` read with `.get`. -/
structure ThresholdStep where
  value : Option ℚ
  color : Option String
deriving DecidableEq, Repr

/-- One entry of the polystat `globalThresholdsConfig` list
(`panel.options`), read with `threshold.get("value")` /
`threshold.get("state", 0)`. -/
structure PolyThreshold where
  value : Option ℚ
  state : Int
deriving DecidableEq, Repr

/-- The `"organize"`-relevant content of one entry of
`panel.transformations`. -/
structure Transformation where
  id : String
  excludeByName : List (String × Bool)
  renameByName : List (String × String)
deriving DecidableEq, Repr

/-- `Panel` (`models.py`), restricted to the keys the transformers read.  The
nested `field_config["defaults"]` entries are surfaced as the values its
accessors `get_unit` / `get_decimals` / `get_thresholds` / `get_min_max`
produce (absent keys are the accessors' defaults: `""`, `None`, `[]`,
`(None, None)`); `options["globalThresholdsConfig"]` likewise defaults to
`[]`. -/
structure Panel where
  id : Int
  type : String
  title : String
  description : String
  unit : String
  decimals : Option Nat
  thresholdSteps : List ThresholdStep
  minVal : Option ℚ
  maxVal : Option ℚ
  globalThresholdsConfig : List PolyThreshold
  transformations : List Transformation
deriving DecidableEq, Repr

/-- `Panel.get_unit` (`models.py`). -/
def Panel.get_unit (p : Panel) : String := p.unit

/-- `Panel.get_decimals` (`models.py`). -/
def Panel.get_decimals (p : Panel) : Option Nat := p.decimals

/-- `Panel.get_thresholds` (`models.py`): `thresholds.steps`, default `[]`. -/
def Panel.get_thresholds (p : Panel) : List ThresholdStep := p.thresholdSteps

/-- `Panel.get_min_max` (`models.py`). -/
def Panel.get_min_max (p : Panel) : Option ℚ × Option ℚ := (p.minVal, p.maxVal)

/-- `Panel.get_excluded_fields` (`models.py`): names marked `true` in any
`organize` transformation's `excludeByName`. -/
def Panel.get_excluded_fields (p : Panel) : List String :=
  p.transformations.foldl
    (fun acc t =>
      if t.id = "organize" then
        acc ++ (t.excludeByName.filterMap fun kv => if kv.2 then some kv.1 else Option.none)
      else acc)
    []

/-- `Panel.get_field_renames` (`models.py`): last-write-wins union of every
`organize` transformation's `renameByName` (lookups below take the first hit,
so later maps are prepended). -/
def Panel.get_field_renames (p : Panel) : List (String × String) :=
  p.transformations.foldl
    (fun acc t => if t.id = "organize" then t.renameByName ++ acc else acc)
    []

/-- `QueryResult` (`models.py`) at the level the transformers consume. -/
structure QueryResult where
  frames : List DataFrame
  error : Option String
deriving DecidableEq, Repr

/-! ## Base transformer helpers (`service/transformers/base.py`) -/

/-- `BaseTransformer._get_color_name` (`base.py`): case-insensitive substring
normalisation to `green`/`yellow`/`red`/`blue`, defaulting to `green`. -/
def get_color_name (color : Option String) : String :=
  match color with
  | Option.none => "green"
  | some c =>
    if c = "" then "green"
    else
      let cl := str_lower c
      if str_contains cl "green" then "green"
      else if str_contains cl "yellow" || str_contains cl "orange" then "yellow"
      else if str_contains cl "red" then "red"
      else if str_contains cl "blue" then "blue"
      else "green"

/-- Whether a threshold step applies to a value (`base.py`):
`step_value is None or value >= step_value`. -/
def stepApplies (v : ℚ) (st : ThresholdStep) : Bool :=
  match st.value with
  | Option.none => true
  | some sv => decide (sv ≤ v)

/-- `BaseTransformer._get_threshold_color` (`base.py`): linear scan where the
last applicable step's colour wins; `green` for a `None` value or no steps. -/
def get_threshold_color (value : Option ℚ) (panel : Panel) : String :=
  match value with
  | Option.none => "green"
  | some v =>
    let thresholds := panel.get_thresholds
    if thresholds.isEmpty then "green"
    else
      thresholds.foldl
        (fun color st => if stepApplies v st then get_color_name st.color else color)
        "green"

/-- The unit-suffix table of `BaseTransformer._format_value` (`base.py`),
reached only for a non-empty unit: mapped symbol, or `" <unit>"`. -/
def unit_suffix (unit : String) : String :=
  if unit = "percent" then "%"
  else if unit = "percentunit" then "%"
  else if unit = "bytes" then " B"
  else if unit = "decbytes" then " B"
  else if unit = "bits" then " b"
  else if unit = "s" then "s"
  else if unit = "ms" then "ms"
  else if unit = "ns" then "ns"
  else " " ++ unit

/-- `BaseTransformer._format_value` (`base.py`). -/
def format_value (value : PyVal) (unit : String) (decimals : Option Nat) : String :=
  match value with
  | .none => "N/A"
  | v =>
    let v2 : PyVal :=
      match v with
      | .float q =>
        match decimals with
        | some d => .float (py_round q d)
        | Option.none =>
            if q = ((pyTrunc q : ℤ) : ℚ) then .int (pyTrunc q) else .float (py_round q 2)
      | x => x
    if unit ≠ "" then pyStr v2 ++ unit_suffix unit else pyStr v2

/-! ## Variable interpolation (`service/grafana/client.py`) -/

/-- `GRAFANA_BUILTINS` (`client.py`), in declaration order. -/
def GRAFANA_BUILTINS : List (String × String) :=
  [("__rate_interval", "5m"),
   ("__interval", "1m"),
   ("__interval_ms", "60000"),
   ("__range", "1h"),
   ("__range_s", "3600"),
   ("__range_ms", "3600000")]

/-- Python's `{**a, **b}` on insertion-ordered dictionaries: keys of `a` keep
their position (with `b`'s value on collision), then keys of `b` not in `a`
follow in `b`'s order.  Variable values are modelled in already-stringified
form, since the source applies `str(value)` pointwise when substituting. -/
def dict_merge (a b : List (String × String)) : List (String × String) :=
  (a.map fun p => match b.lookup p.1 with | some v => (p.1, v) | Option.none => p)
    ++ b.filter fun p => (a.lookup p.1).isNone

/-- The `all_vars` dictionary of `_substitute_variables` (`client.py`):
built-ins merged with the user variables, user values taking precedence. -/
def allVariables (vmap : List (String × String)) : List (String × String) :=
  dict_merge GRAFANA_BUILTINS vmap

/-- The string-leaf rewriting of `_substitute_variables` (`client.py`): for
each variable in dictionary order, replace all occurrences of `${name}`, then
of `$name`. -/
def substitute_string (vars : List (String × String)) (s : String) : String :=
  vars.foldl
    (fun acc p =>
      str_replace (str_replace acc ("$\x7b" ++ p.1 ++ "\x7d") p.2) ("$" ++ p.1) p.2)
    s

mutual
/-- `_substitute_variables` (`client.py`): recursively substitutes variables
in every string leaf, rebuilding mappings and sequences. -/
def substitute_variables : J → List (String × String) → J
  | obj, vmap =>
    let all_vars := allVariables vmap
    if all_vars.isEmpty then obj
    else
      match obj with
      | .str s => .str (substitute_string all_vars s)
      | .obj kvs => .obj (substituteObjFields kvs vmap)
      | .arr xs => .arr (substituteArrItems xs vmap)
      | x => x

/-- The list comprehension over a mapping's items in `_substitute_variables`. -/
def substituteObjFields : List (String × J) → List (String × String) → List (String × J)
  | [], _ => []
  | (k, v) :: kvs, vmap =>
      (k, substitute_variables v vmap) :: substituteObjFields kvs vmap

/-- The list comprehension over a sequence's items in `_substitute_variables`. -/
def substituteArrItems : List J → List (String × String) → List J
  | [], _ => []
  | x :: xs, vmap =>
      substitute_variables x vmap :: substituteArrItems xs vmap
end

mutual
/-- Reference form of the interpolation contract: apply one fixed string
rewriting function to every string leaf, preserving the structure. -/
def mapStrLeaves (f : String → String) : J → J
  | .str s => .str (f s)
  | .obj kvs => .obj (mapStrLeavesObj f kvs)
  | .arr xs => .arr (mapStrLeavesArr f xs)
  | x => x

/-- `mapStrLeaves` on the fields of a mapping. -/
def mapStrLeavesObj (f : String → String) : List (String × J) → List (String × J)
  | [] => []
  | (k, v) :: kvs => (k, mapStrLeaves f v) :: mapStrLeavesObj f kvs

/-- `mapStrLeaves` on the items of a sequence. -/
def mapStrLeavesArr (f : String → String) : List J → List J
  | [] => []
  | x :: xs => mapStrLeaves f x :: mapStrLeavesArr f xs
end

/-! ## Raw frame and query-result parsing (`service/grafana/models.py`) -/

/-- The result of `DataFrame.from_api_response` at payload level: the three
parts exactly as extracted from the raw frame payload. -/
structure RawFrame where
  name : J
  fields : J
  values : J

/-- `DataFrame.from_api_response` (`models.py`): prefer `schema.fields` /
`data.values` / `schema.name`, fall back to the payload root field by field
(via Python's falsy `or`). -/
def frame_from_api_response (frame_data : J) : RawFrame :=
  let schema := jGetD frame_data "schema" (J.obj [])
  let data := jGetD frame_data "data" (J.obj [])
  { fields := pyOr (jGetD schema "fields" J.null) (jGetD frame_data "fields" (J.arr []))
    values := pyOr (jGetD data "values" J.null) (jGetD frame_data "values" (J.arr []))
    name := pyOr (jGetD schema "name" J.null) (jGetD frame_data "name" (J.str "")) }

/-- `QueryResult.from_api_response` output at payload level. -/
structure RawQueryResult where
  frames : List RawFrame
  error : Option J

/-- The `if not frame.name: frame.name = ref_id` step of
`QueryResult.from_api_response` (`models.py`). -/
def withRefIdName (ref_id : String) (fr : RawFrame) : RawFrame :=
  if fr.name.truthy then fr else { fr with name := J.str ref_id }

/-- The items of `result.get("frames", [])` for one per-query entry. -/
def jFrames (result : J) : List J :=
  match jGetD result "frames" (J.arr []) with
  | .arr fs => fs
  | _ => []

/-- One iteration of the `for ref_id, result in results.items()` loop of
`QueryResult.from_api_response` (`models.py`): an entry carrying an `error`
key records it and contributes nothing; otherwise its frames are parsed,
empty names replaced by the ref id, and appended. -/
def queryResultStep (acc : List RawFrame × Option J) (entry : String × J) :
    List RawFrame × Option J :=
  match jGet entry.2 "error" with
  | some e => (acc.1, some e)
  | Option.none =>
      (acc.1 ++ (jFrames entry.2).map fun fd => withRefIdName entry.1 (frame_from_api_response fd),
       acc.2)

/-- `QueryResult.from_api_response` (`models.py`), driven by the ordered
items of `response["results"]`. -/
def query_result_from_api_response (response : J) : RawQueryResult :=
  let results :=
    match jGetD response "results" (J.obj []) with
    | .obj kvs => kvs
    | _ => []
  let out := results.foldl queryResultStep ([], Option.none)
  { frames := out.1, error := out.2 }

/-! ## Polystat transformer (`service/transformers/polystat.py`) -/

/-- One entry of the polystat `stats` list. -/
structure PolyStat where
  name : String
  value : PyVal
  formatted_value : String
  status : String
deriving DecidableEq, Repr

/-- The merge-variables mapping produced by `PolystatTransformer.transform`. -/
structure PolystatVars where
  panel_type : String
  title : String
  description : String
  timestamp : String
  unit : String
  stats : List PolyStat
deriving DecidableEq, Repr

/-- `PolystatTransformer._get_status_from_polystat_thresholds` (`polystat.py`):
exact-value lookup, mapping `state` 2/1/other to critical/warning/ok. -/
def get_status_from_polystat_thresholds (value : ℚ) (thresholds : List PolyThreshold) : String :=
  match thresholds.find? fun t => t.value == some value with
  | some t => if t.state = 2 then "critical" else if t.state = 1 then "warning" else "ok"
  | Option.none => "ok"

/-- `PolystatTransformer._get_status` (`polystat.py`). -/
def get_status (value : PyVal) (panel : Panel) : String :=
  match value with
  | .none => "ok"
  | v =>
    if !pyIsNum v then
      let sv := str_lower (pyStr v)
      if ["error", "down", "fail", "critical"].any (fun x => str_contains sv x) then "critical"
      else if ["warn", "degraded"].any (fun x => str_contains sv x) then "warning"
      else "ok"
    else
      if !panel.globalThresholdsConfig.isEmpty then
        get_status_from_polystat_thresholds (toRatN v) panel.globalThresholdsConfig
      else
        let thresholds := panel.get_thresholds
        if thresholds.isEmpty then
          if toRatN v = 0 then "critical" else "ok"
        else
          let color := thresholds.foldl
            (fun c st => if stepApplies (toRatN v) st then st.color.getD "green" else c) "green"
          let cl := str_lower color
          if str_contains cl "red" then "critical"
          else if str_contains cl "yellow" || str_contains cl "orange" then "warning"
          else "ok"

/-- Number of positional parameters of `BaseTransformer._base_variables`
(`base.py` line 40): `self` and `panel`. -/
def base_variables_param_count : Nat := 2

/-- Number of positional arguments `PolystatTransformer.transform` passes to
`_base_variables` (`polystat.py` line 33): `self`, `panel` and
`kwargs.get("timezone", "UTC")`. -/
def polystat_base_variables_arg_count : Nat := 3

/-- `PolystatTransformer.transform` (`polystat.py`).  Its first statement
calls `self._base_variables(panel, kwargs.get("timezone", "UTC"))`; the
method accepts only `(self, panel)`, so in Python the call raises `TypeError`
before any of the remaining body runs.  The remaining body is translated in
the unreached branch. -/
def polystat_transform (panel : Panel) (query_result : QueryResult)
    (kwargs : List (String × String)) (now : String) : Except String PolystatVars :=
  if polystat_base_variables_arg_count ≠ base_variables_param_count then
    .error "TypeError: BaseTransformer._base_variables() takes 2 positional arguments but 3 were given"
  else
    let label_key := (kwargs.lookup "label_key").getD "name"
    let stats := query_result.frames.map fun fr =>
      let name := fr.get_display_name label_key
      let value :=
        match fr.get_value_fields with
        | [] => PyVal.none
        | (_, vs) :: _ => (vs.getLast?).getD PyVal.none
      { name := name, value := value,
        formatted_value := format_value value panel.get_unit panel.get_decimals,
        status := get_status value panel : PolyStat }
    .ok { panel_type := "polystat", title := panel.title, description := panel.description,
          timestamp := now, unit := panel.get_unit, stats := stats }

/-! ## Time-series transformer (`service/transformers/timeseries.py`) -/

/-- Python's `a or b` where `a` is an optional string
(`labels.get(label_key) or field.get("name", "Value")`). -/
def pyOrS (a : Option String) (b : String) : String :=
  match a with
  | some v => if v = "" then b else v
  | Option.none => b

/-- The per-series `metadata` dictionary of
`TimeSeriesTransformer._process_series`. -/
structure SeriesMeta where
  name : String
  current : PyVal
  formatted_current : String
  minV : PyVal
  maxV : PyVal
  avg : Option ℚ
  point_count : Nat
deriving DecidableEq, Repr

/-- One `chart_data` point. -/
structure ChartPoint where
  time : String
  value : PyVal
  label : String
deriving DecidableEq, Repr

/-- The merge-variables mapping produced by `TimeSeriesTransformer.transform`
(`current_value` and friends are only set when at least one series exists,
hence the `Option`s). -/
structure TimeSeriesVars where
  panel_type : String
  title : String
  description : String
  timestamp : String
  unit : String
  series : List SeriesMeta
  chart_data : List ChartPoint
  current_value : Option PyVal
  formatted_value : Option String
  min_value : Option PyVal
  max_value : Option PyVal
  avg_value : Option (Option ℚ)
deriving DecidableEq, Repr

/-- `TimeSeriesTransformer._format_timestamp` (`timeseries.py`): numbers above
`1_000_000_000_000` are milliseconds, divided by 1000; the result is the UTC
`"%H:%M"` rendering; non-numeric timestamps pass through `str`.  (The
platform-dependent `OSError` overflow branch of `datetime.fromtimestamp` is
not modelled.) -/
def format_timestamp (ts : PyVal) : String :=
  match ts with
  | .none => ""
  | v =>
    if pyIsNum v then
      let tsq := toRatN v
      let sec : ℚ := if 1000000000000 < tsq then tsq / 1000 else tsq
      let sod : ℤ := Int.emod ⌊sec⌋ 86400
      padZeros 2 (toString (sod / 3600)) ++ ":" ++ padZeros 2 (toString (Int.emod sod 3600 / 60))
    else pyStr v

/-- `TimeSeriesTransformer._process_series` (`timeseries.py`): series name
from `labels[label_key]` (Python `or`), statistics over the
`isinstance-(int, float)` values, points for the non-`None` values paired
with the time column. -/
def process_series (field : FrameField) (time_values : List PyVal) (values : List PyVal)
    (panel : Panel) (label_key : String) : SeriesMeta × List ChartPoint :=
  let name := pyOrS (field.labels.lookup label_key) (field.name.getD "Value")
  let numeric_values := values.filter pyIsNum
  let current := (numeric_values.getLast?).getD PyVal.none
  let minv :=
    match numeric_values with
    | [] => PyVal.none
    | x :: xs => xs.foldl (fun acc v => if toRatN v < toRatN acc then v else acc) x
  let maxv :=
    match numeric_values with
    | [] => PyVal.none
    | x :: xs => xs.foldl (fun acc v => if toRatN acc < toRatN v then v else acc) x
  let avg : Option ℚ :=
    match numeric_values with
    | [] => Option.none
    | l => some ((l.map toRatN).sum / l.length)
  let points := (time_values.zip values).filterMap fun tv =>
    if tv.2 = PyVal.none then Option.none
    else some { time := format_timestamp tv.1, value := tv.2, label := name : ChartPoint }
  ({ name := name, current := current,
     formatted_current := format_value current panel.get_unit panel.get_decimals,
     minV := minv, maxV := maxv,
     avg := avg.map fun a => py_round a 2,
     point_count := points.length }, points)

/-- `TimeSeriesTransformer.transform` (`timeseries.py`).  Note the label key
is read from the option named `"label"` (line 27), with default `"name"`. -/
def timeseries_transform (panel : Panel) (query_result : QueryResult)
    (kwargs : List (String × String)) (now : String) : TimeSeriesVars :=
  let label_key := (kwargs.lookup "label").getD "name"
  let processed :=
    (query_result.frames.map fun fr =>
      let time_values := fr.get_time_values
      fr.fields.enum.filterMap fun p =>
        if p.2.type == some "time" then Option.none
        else
          let field_name := p.2.name.getD ("field_" ++ toString p.1)
          if field_name ∈ timeNames then Option.none
          else
            match fr.values.get? p.1 with
            | Option.none => Option.none
            | some vs => some (process_series p.2 time_values vs panel label_key)).flatten
  let series_list := processed.map (·.1)
  { panel_type := "timeseries", title := panel.title, description := panel.description,
    timestamp := now, unit := panel.get_unit,
    series := series_list,
    chart_data := (processed.map (·.2)).flatten,
    current_value := series_list.head?.map (·.current),
    formatted_value := series_list.head?.map (·.formatted_current),
    min_value := series_list.head?.map (·.minV),
    max_value := series_list.head?.map (·.maxV),
    avg_value := series_list.head?.map (·.avg) }

/-! ## Table transformer (`service/transformers/table.py`) -/

/-- The merge-variables mapping produced by `TableTransformer.transform`. -/
structure TableVars where
  panel_type : String
  title : String
  description : String
  timestamp : String
  unit : String
  columns : List String
  rows : List (List String)
  row_count : Nat
deriving DecidableEq, Repr

/-- Python's `f"{value:.2f}"`: fixed two-decimal rendering with round half to
even. -/
def renderFixed2 (q : ℚ) : String :=
  let n := pyRound0 (q * 100)
  let sgn := if n < 0 then "-" else ""
  sgn ++ toString (n.natAbs / 100) ++ "." ++ padZeros 2 (toString (n.natAbs % 100))

/-- `TableTransformer._format_cell` (`table.py`): `None` to `""`, integral
floats to integer strings, other floats to two decimals, booleans to
`Yes`/`No`, the rest via `str`. -/
def format_cell (value : PyVal) : String :=
  match value with
  | .none => ""
  | .float q => if q = ((pyTrunc q : ℤ) : ℚ) then toString (pyTrunc q) else renderFixed2 q
  | .bool b => if b then "Yes" else "No"
  | v => pyStr v

/-- `TableTransformer._format_column_name` (`table.py`):
`key.replace("_", " ").title()`. -/
def format_column_name (key : String) : String :=
  str_title (str_replace key "_" " ")

/-- `TableTransformer._is_prometheus_table_format` (`table.py`): some
non-time field of the first frame carries non-empty labels. -/
def is_prometheus_table_format (query_result : QueryResult) : Bool :=
  match query_result.frames with
  | [] => false
  | fr :: _ => fr.fields.any fun f => f.type != some "time" && !f.labels.isEmpty

/-- `TableTransformer._transform_standard_table` (`table.py`): columns are
the first frame's field names minus exclusions with renames applied; rows
transpose the column-major values, one row per index of the first column,
missing cells rendering as `""`.  (The source indexes `frames[0]`; callers
reach it only with a non-empty frame list, so the empty case returns the
empty table.) -/
def transform_standard_table (query_result : QueryResult) (excluded : List String)
    (renames : List (String × String)) : List String × List (List String) :=
  match query_result.frames with
  | [] => ([], [])
  | fr :: _ =>
    let included := fr.get_field_names.enum.filterMap fun p =>
      if p.2 ∈ excluded then Option.none else some (p.1, (renames.lookup p.2).getD p.2)
    let rows :=
      match fr.values with
      | [] => []
      | col0 :: _ =>
        (List.range col0.length).map fun row_idx =>
          included.map fun ic =>
            match fr.values.get? ic.1 with
            | some colv =>
              match colv.get? row_idx with
              | some cell => format_cell cell
              | Option.none => ""
            | Option.none => ""
    (included.map (·.2), rows)

/-- The fixed priority column order of `_transform_prometheus_table`
(`table.py`). -/
def priority_cols : List String := ["service_name", "name", "instance", "job", "state"]

/-- The priority reordering loop of `_transform_prometheus_table`
(`table.py`): priority hits first, in priority order, then the remaining
keys. -/
def applyPriority : List String → List String → List String
  | [], ks => ks
  | p :: ps, ks => if ks.contains p then p :: applyPriority ps (ks.erase p) else applyPriority ps ks

/-- First-occurrence deduplication, modelling the accumulation of a Python
`set` whose contents are subsequently `sorted`. -/
def dedupStr (l : List String) : List String :=
  l.foldl (fun acc s => if acc.contains s then acc else acc ++ [s]) []

/-- The sort key of `_transform_prometheus_table`'s row sort (`table.py`):
`r[sort_idx].lower() if r[sort_idx] else ""`. -/
def rowSortKey (sort_idx : Nat) (r : List String) : String :=
  let c := (r.get? sort_idx).getD ""
  if c ≠ "" then str_lower c else ""

/-- `TableTransformer._transform_prometheus_table` (`table.py`): one row per
frame, columns from the union of label keys (priority-ordered, internal and
excluded keys removed) plus an optional `Value` column; rows sorted
case-insensitively by the configured label key's column when present. -/
def transform_prometheus_table (query_result : QueryResult) (excluded : List String)
    (renames : List (String × String)) (kwargs : List (String × String)) :
    List String × List (List String) :=
  let label_key := (kwargs.lookup "label_key").getD "service_name"
  let raw_keys :=
    (query_result.frames.map fun fr =>
      (fr.fields.filterMap fun f =>
        if f.type != some "time" then some (f.labels.map (·.1)) else Option.none).flatten).flatten
  let label_keys :=
    ((dedupStr raw_keys).filter fun k => k ≠ "__name__" && !excluded.contains k).mergeSort
      fun a b => str_le a.data b.data
  let ordered_keys := applyPriority priority_cols label_keys
  let include_value := !excluded.contains "Value" && !excluded.contains "value"
  let columns :=
    ordered_keys.map (fun k => (renames.lookup k).getD (format_column_name k)) ++
      (if include_value then [(renames.lookup "Value").getD ((renames.lookup "value").getD "Value")]
       else [])
  let rows := query_result.frames.filterMap fun fr =>
    match fr.fields.enum.find? fun p => p.2.type != some "time" with
    | Option.none => Option.none
    | some p =>
      let labels := p.2.labels
      let valueStr :=
        match fr.values.get? p.1 with
        | some arr => ((arr.getLast?).map format_cell).getD ""
        | Option.none => ""
      some ((ordered_keys.map fun k => (labels.lookup k).getD "") ++
        (if include_value then [valueStr] else []))
  let rows2 :=
    match ordered_keys.indexOf? label_key with
    | some sort_idx =>
        rows.mergeSort fun a b => str_le (rowSortKey sort_idx a).data (rowSortKey sort_idx b).data
    | Option.none => rows
  (columns, rows2)

/-- `TableTransformer.transform` (`table.py`): empty result for no frames;
otherwise the Prometheus multi-frame path exactly when more than one frame
exists and the first frame carries labelled non-time fields, else the
standard path. -/
def table_transform (panel : Panel) (query_result : QueryResult)
    (kwargs : List (String × String)) (now : String) : TableVars :=
  let base : TableVars :=
    { panel_type := "table", title := panel.title, description := panel.description,
      timestamp := now, unit := panel.get_unit,
      columns := [], rows := [], row_count := 0 }
  if query_result.frames.isEmpty then base
  else
    let excluded := panel.get_excluded_fields
    let renames := panel.get_field_renames
    let cr :=
      if 1 < query_result.frames.length && is_prometheus_table_format query_result then
        transform_prometheus_table query_result excluded renames kwargs
      else
        transform_standard_table query_result excluded renames
    { base with columns := cr.1, rows := cr.2, row_count := cr.2.length }

/-! ## Gauge / bar-gauge transformer (`service/transformers/gauge.py`) -/

/-- `GaugeTransformer._calculate_percentage` (`gauge.py`):
`max(0, min(100, int(round(((value-min)/(max-min))*100))))`, with the
degenerate `max == min` case mapping to 100/0 by comparison with `max`. -/
def calculate_percentage (value min_val max_val : ℚ) : ℤ :=
  if max_val = min_val then (if max_val ≤ value then 100 else 0)
  else max 0 (min 100 (pyRound0 ((value - min_val) / (max_val - min_val) * 100)))

/-- One entry of the bar-gauge `bars` list. -/
structure Bar where
  name : String
  value : PyVal
  formatted_value : String
  percentage : ℤ
  color : String
deriving DecidableEq, Repr

/-- The merge-variables mapping produced by `BarGaugeTransformer.transform`. -/
structure BarGaugeVars where
  panel_type : String
  title : String
  description : String
  timestamp : String
  unit : String
  minVal : ℚ
  maxVal : ℚ
  bars : List Bar
  value : PyVal
  formatted_value : String
  percentage : ℤ
  color : String
deriving DecidableEq, Repr

/-- One bar of `BarGaugeTransformer.transform` (`gauge.py`): the dictionary
appended for a column whose last value passes the numeric check. -/
def mk_bar (panel : Panel) (nm : String) (value : PyVal) : Bar :=
  { name := nm, value := value,
    formatted_value := format_value value panel.get_unit panel.get_decimals,
    percentage := calculate_percentage (toRatN value)
      ((panel.get_min_max).1.getD 0) ((panel.get_min_max).2.getD 100),
    color := get_threshold_color (some (toRatN value)) panel }

/-- The bar-collecting double loop of `BarGaugeTransformer.transform`
(`gauge.py`): over every frame and every non-time value column, appending a
bar when the column's last value passes
`value is not None and isinstance(value, (int, float))`. -/
def bargauge_bars (panel : Panel) (query_result : QueryResult) : List Bar :=
  query_result.frames.foldl
    (fun acc fr =>
      fr.get_value_fields.foldl
        (fun acc2 nv =>
          let value := (nv.2.getLast?).getD PyVal.none
          if value != PyVal.none && pyIsNum value then acc2 ++ [mk_bar panel nv.1 value]
          else acc2)
        acc)
    []

/-- `BarGaugeTransformer.transform` (`gauge.py`): one bar per non-time value
column whose last element passes `value is not None and
isinstance(value, (int, float))`; the panel-level value mirrors the first
bar or the `None`/`"N/A"`/`0`/`"green"` defaults. -/
def bargauge_transform (panel : Panel) (query_result : QueryResult) (now : String) :
    BarGaugeVars :=
  let mm := panel.get_min_max
  let min_val : ℚ := mm.1.getD 0
  let max_val : ℚ := mm.2.getD 100
  let unit := panel.get_unit
  let bars := bargauge_bars panel query_result
  let base : BarGaugeVars :=
    { panel_type := "bargauge", title := panel.title, description := panel.description,
      timestamp := now, unit := unit, minVal := min_val, maxVal := max_val,
      bars := bars, value := PyVal.none, formatted_value := "N/A",
      percentage := 0, color := "green" }
  match bars with
  | [] => base
  | b :: _ =>
    { base with value := b.value, formatted_value := b.formatted_value,
                percentage := b.percentage, color := b.color }

/-! ## Helper lemmas -/

theorem find?_append_my {α : Type} (p : α → Bool) :
    ∀ (l₁ l₂ : List α),
      (l₁ ++ l₂).find? p = ((l₁.find? p).orElse fun _ => l₂.find? p)
  | [], l₂ => rfl
  | a :: l₁, l₂ => by
      by_cases h : p a
      · simp [List.find?_cons_of_pos _ h]
      · simp only [List.cons_append, List.find?_cons_of_neg _ h, find?_append_my p l₁ l₂]

theorem foldl_if_last {α β : Type} (P : α → Bool) (g : α → β) :
    ∀ (l : List α) (c : β),
      l.foldl (fun acc st => if P st then g st else acc) c =
        ((l.reverse.find? P).map g).getD c := by
  intro l
  induction l with
  | nil => intro c; rfl
  | cons a l ih =>
      intro c
      simp only [List.foldl_cons, List.reverse_cons, find?_append_my, ih]
      cases hl : l.reverse.find? P with
      | none =>
          simp only [hl, Option.orElse]
          by_cases h : P a <;> simp [List.find?, h]
      | some b => simp [hl, Option.orElse]

/-- A sample panel whose threshold steps are
`[{null, green}, {70, yellow}, {90, red}]`. -/
def samplePanel : Panel :=
  { id := 1, type := "stat", title := "Test", description := "", unit := "",
    decimals := Option.none,
    thresholdSteps :=
      [⟨Option.none, some "green"⟩, ⟨some 70, some "yellow"⟩, ⟨some 90, some "red"⟩],
    minVal := Option.none, maxVal := Option.none,
    globalThresholdsConfig := [], transformations := [] }

/-- A panel with no configured threshold steps. -/
def plainPanel : Panel :=
  { id := 2, type := "stat", title := "Plain", description := "", unit := "",
    decimals := Option.none, thresholdSteps := [],
    minVal := Option.none, maxVal := Option.none,
    globalThresholdsConfig := [], transformations := [] }

/-! ## C3 -/

/-- C3: `threshold_color` returns green for a null value and for a panel with
no threshold steps; otherwise it scans the steps in order, a step applies
when its value is null or is at most the measured value, and the colour of
the last applicable step wins — so for steps
`[{null, green}, {70, yellow}, {90, red}]`, 50 yields green, 75 yellow and 95
red. -/
theorem threshold_color_spec :
    (∀ p : Panel, get_threshold_color Option.none p = "green")
    ∧ (∀ (p : Panel) (v : ℚ), p.get_thresholds = [] → get_threshold_color (some v) p = "green")
    ∧ (∀ (p : Panel) (v : ℚ), ¬p.get_thresholds = [] →
        get_threshold_color (some v) p =
          (((p.get_thresholds.reverse.find? (stepApplies v)).map
              fun st => get_color_name st.color).getD "green"))
    ∧ (get_threshold_color (some 50) samplePanel = "green"
        ∧ get_threshold_color (some 75) samplePanel = "yellow"
        ∧ get_threshold_color (some 95) samplePanel = "red") := by
  refine ⟨fun p => rfl, fun p v h => ?_, fun p v h => ?_, ?_, ?_, ?_⟩
  · unfold get_threshold_color
    rw [h]
    rfl
  · unfold get_threshold_color
    show (if (p.get_thresholds).isEmpty = true then "green"
        else p.get_thresholds.foldl
          (fun color st => if stepApplies v st = true then get_color_name st.color else color)
          "green") = _
    rw [if_neg (by simpa [List.isEmpty_iff] using h)]
    exact foldl_if_last (stepApplies v) (fun st => get_color_name st.color) p.get_thresholds "green"
  · decide
  · decide
  · decide

/-- Witness for C3, instantiating the hypotheses at concrete inputs: the
no-steps branch at `plainPanel` and the last-applicable-step characterisation
at `samplePanel` with value 75. -/
theorem threshold_color_spec_witness :
    (Panel.get_thresholds plainPanel = [] ∧ get_threshold_color (some 5) plainPanel = "green")
    ∧ (¬Panel.get_thresholds samplePanel = []
        ∧ get_threshold_color (some 75) samplePanel =
            (((samplePanel.get_thresholds.reverse.find? (stepApplies 75)).map
                fun st => get_color_name st.color).getD "green")) :=
  ⟨⟨rfl, threshold_color_spec.2.1 plainPanel 5 rfl⟩,
   ⟨by decide, threshold_color_spec.2.2.1 samplePanel 75 (by decide)⟩⟩

/-! ## C9 -/

theorem pyRound0_intCast (n : ℤ) : pyRound0 (n : ℚ) = n := by
  unfold pyRound0
  rw [Int.floor_intCast, if_pos (by norm_num : (n : ℚ) - n < 1/2)]

theorem pyRound0_le {q : ℚ} {n : ℤ} (h : q ≤ (n : ℚ)) : pyRound0 q ≤ n := by
  have hf : ⌊q⌋ ≤ n := by
    have := Int.floor_le_floor h
    simpa using this
  have key : ¬(q - (⌊q⌋ : ℚ) < 1/2) → ⌊q⌋ + 1 ≤ n := by
    intro hge
    rcases eq_or_lt_of_le hf with he | hl
    · exfalso
      apply hge
      have : q - (⌊q⌋ : ℚ) ≤ 0 := by
        rw [he]
        linarith
      linarith
    · omega
  unfold pyRound0
  split_ifs with h1 h2 h3
  · exact hf
  · exact key h1
  · exact hf
  · exact key h1

theorem pyRound0_ge {q : ℚ} {n : ℤ} (h : (n : ℚ) ≤ q) : n ≤ pyRound0 q := by
  have hf : n ≤ ⌊q⌋ := Int.le_floor.mpr h
  unfold pyRound0
  split_ifs <;> omega

/-- C9: for `min ≠ max` the gauge percentage equals
`round(clamp((value-min)/(max-min)*100, 0, 100))` and lies in `[0, 100]`;
for `min == max` it is 100 when the value reaches `max`, else 0; value 150
on `[0, 100]` gives 100 and value -10 gives 0. -/
theorem calculate_percentage_spec :
    (∀ v mn mx : ℚ, mn ≠ mx →
        calculate_percentage v mn mx
            = pyRound0 (max 0 (min 100 ((v - mn) / (mx - mn) * 100)))
          ∧ 0 ≤ calculate_percentage v mn mx ∧ calculate_percentage v mn mx ≤ 100)
    ∧ (∀ v mx : ℚ, calculate_percentage v mx mx = if mx ≤ v then 100 else 0)
    ∧ calculate_percentage 150 0 100 = 100 ∧ calculate_percentage (-10) 0 100 = 0 := by
  refine ⟨fun v mn mx hne => ?_, fun v mx => ?_, ?_, ?_⟩
  · unfold calculate_percentage
    rw [if_neg (fun he => hne he.symm)]
    set x : ℚ := (v - mn) / (mx - mn) * 100 with hx
    constructor
    · by_cases hx0 : x < 0
      · have h1 : max (0 : ℚ) (min 100 x) = 0 :=
          max_eq_left (le_trans (min_le_right _ _) (le_of_lt hx0))
        have h2 : pyRound0 x ≤ 0 := pyRound0_le (n := 0) (by exact_mod_cast le_of_lt hx0)
        rw [h1, show ((0 : ℚ)) = ((0 : ℤ) : ℚ) by norm_num, pyRound0_intCast]
        rw [min_eq_right (le_trans h2 (by norm_num)), max_eq_left h2]
      · push_neg at hx0
        by_cases hx100 : x ≤ 100
        · have h1 : max (0 : ℚ) (min 100 x) = x := by
            rw [min_eq_right hx100]
            exact max_eq_right hx0
          have h2 : (0 : ℤ) ≤ pyRound0 x := pyRound0_ge (by exact_mod_cast hx0)
          have h3 : pyRound0 x ≤ (100 : ℤ) := pyRound0_le (by exact_mod_cast hx100)
          rw [h1, min_eq_right h3, max_eq_right h2]
        · push_neg at hx100
          have h1 : max (0 : ℚ) (min 100 x) = 100 := by
            rw [min_eq_left (le_of_lt hx100)]
            exact max_eq_right (by norm_num)
          have h2 : (100 : ℤ) ≤ pyRound0 x := pyRound0_ge (n := 100) (by exact_mod_cast le_of_lt hx100)
          rw [h1, show ((100 : ℚ)) = ((100 : ℤ) : ℚ) by norm_num, pyRound0_intCast]
          rw [min_eq_left h2, max_eq_right (by norm_num : (0 : ℤ) ≤ 100)]
    · constructor
      · exact le_max_left 0 _
      · exact max_le (by norm_num) (min_le_left _ _)
  · unfold calculate_percentage
    rw [if_pos rfl]
  · have hfl : ⌊(150 : ℚ)⌋ = 150 := by
      rw [show ((150 : ℚ)) = ((150 : ℤ) : ℚ) by norm_num, Int.floor_intCast]
    norm_num [calculate_percentage, pyRound0, hfl]
  · have hfl : ⌊(-10 : ℚ)⌋ = -10 := by
      rw [show ((-10 : ℚ)) = ((-10 : ℤ) : ℚ) by norm_num, Int.floor_intCast]
    norm_num [calculate_percentage, pyRound0, hfl]

/-- Witness for C9, instantiating the `min ≠ max` hypothesis at
`value = 150`, `min = 0`, `max = 100`. -/
theorem calculate_percentage_spec_witness :
    (0 : ℚ) ≠ 100
    ∧ (calculate_percentage 150 0 100
          = pyRound0 (max 0 (min 100 ((150 - 0) / (100 - 0) * 100)))
        ∧ 0 ≤ calculate_percentage 150 0 100 ∧ calculate_percentage 150 0 100 ≤ 100) :=
  ⟨by norm_num, calculate_percentage_spec.1 150 0 100 (by norm_num)⟩

/-! ## C1 -/

/-- C1: `PolystatTransformer.transform` never returns a merge-variables
mapping at all — for every panel, query result, option bag and timestamp its
first statement raises `TypeError`, because `polystat.py` line 33 passes a
timezone argument to `BaseTransformer._base_variables`, which accepts only
the panel (`base.py` line 40). -/
theorem polystat_transform_always_raises :
    ∀ (panel : Panel) (query_result : QueryResult)
      (kwargs : List (String × String)) (now : String),
      polystat_transform panel query_result kwargs now =
        .error "TypeError: BaseTransformer._base_variables() takes 2 positional arguments but 3 were given" := by
  intro p q k n
  rfl

/-! ## C4 -/

theorem py_round_85567 : py_round ((85567 : ℚ)/1000) 2 = 8557/100 := by
  unfold py_round pyRound0
  have h1 : ((85567 : ℚ)/1000 * 10 ^ 2) = 85567/10 := by norm_num
  have h2 : ⌊(85567 : ℚ)/10⌋ = 8556 := by
    rw [Int.floor_eq_iff]
    norm_num
  rw [h1, h2]
  norm_num

theorem renderFloat_8557 : renderFloat ((8557 : ℚ)/100) = "85.57" := by
  have h1 : ((8557 : ℚ)/100).num = 8557 := by norm_num
  have h2 : ((8557 : ℚ)/100).den = 100 := by norm_num
  simp [renderFloat, h1, h2, fracDigitsCount]
  rfl

/-- C4: `format_value` maps null to `"N/A"`; a float with explicit decimals
is rounded to that many places; a float with no explicit decimals renders as
an integer when it equals its truncation and is otherwise rounded to two
places; the unit-suffix table resolves as documented, with `" <unit>"` for
any other non-empty unit and no suffix for an empty unit; and
`format_value(85.0, "percent", None) = "85%"`,
`format_value(85.567, "", 2) = "85.57"`,
`format_value(None, "", None) = "N/A"`. -/
theorem format_value_spec :
    (∀ (u : String) (d : Option Nat), format_value PyVal.none u d = "N/A")
    ∧ (∀ (q : ℚ) (d : Nat), format_value (.float q) "" (some d) = renderFloat (py_round q d))
    ∧ (∀ q : ℚ, q = ((pyTrunc q : ℤ) : ℚ) →
        format_value (.float q) "" Option.none = toString (pyTrunc q))
    ∧ (∀ q : ℚ, q ≠ ((pyTrunc q : ℤ) : ℚ) →
        format_value (.float q) "" Option.none = renderFloat (py_round q 2))
    ∧ (unit_suffix "percent" = "%" ∧ unit_suffix "percentunit" = "%"
        ∧ unit_suffix "bytes" = " B" ∧ unit_suffix "decbytes" = " B"
        ∧ unit_suffix "bits" = " b" ∧ unit_suffix "s" = "s" ∧ unit_suffix "ms" = "ms"
        ∧ unit_suffix "ns" = "ns")
    ∧ (∀ u : String,
        u ∉ ["percent", "percentunit", "bytes", "decbytes", "bits", "s", "ms", "ns"] →
        unit_suffix u = " " ++ u)
    ∧ (∀ (n : ℤ) (u : String), u ≠ "" →
        format_value (.int n) u Option.none = toString n ++ unit_suffix u)
    ∧ (∀ n : ℤ, format_value (.int n) "" Option.none = toString n)
    ∧ format_value (.float 85) "percent" Option.none = "85%"
    ∧ format_value (.float (85567/1000)) "" (some 2) = "85.57"
    ∧ format_value PyVal.none "" Option.none = "N/A" := by
  have hsuffix : ∀ u : String,
      u ∉ ["percent", "percentunit", "bytes", "decbytes", "bits", "s", "ms", "ns"] →
      unit_suffix u = " " ++ u := by
    intro u hu
    simp only [List.mem_cons, List.not_mem_nil, or_false] at hu
    push_neg at hu
    obtain ⟨h1, h2, h3, h4, h5, h6, h7, h8⟩ := hu
    unfold unit_suffix
    rw [if_neg h1, if_neg h2, if_neg h3, if_neg h4, if_neg h5, if_neg h6, if_neg h7, if_neg h8]
  refine ⟨fun u d => rfl, fun q d => rfl, fun q h => ?_, fun q h => ?_,
    ⟨rfl, rfl, rfl, rfl, rfl, rfl, rfl, rfl⟩, hsuffix, fun n u hu => ?_, fun n => rfl,
    ?_, ?_, rfl⟩
  · simp only [format_value]
    rw [if_pos h]
    rfl
  · simp only [format_value]
    rw [if_neg h]
    rfl
  · simp only [format_value]
    rw [if_pos hu]
    rfl
  · have htr : (85 : ℚ) = ((pyTrunc 85 : ℤ) : ℚ) := by
      have : pyTrunc (85 : ℚ) = 85 := by
        unfold pyTrunc
        norm_num
        try decide
      rw [this]
      norm_num
    simp only [format_value]
    rw [if_pos htr]
    have : pyTrunc (85 : ℚ) = 85 := by
      unfold pyTrunc
      norm_num
      try decide
    rw [this]
    rfl
  · have step : format_value (.float (85567/1000)) "" (some 2) = renderFloat (py_round (85567/1000) 2) := rfl
    rw [step, py_round_85567, renderFloat_8557]

/-- Witness for C4, instantiating its hypotheses at concrete inputs: the
auto-decimals branches at `85.0` and `85.567`, and the generic-unit branch at
`"req/s"`. -/
theorem format_value_spec_witness :
    ((85 : ℚ) = ((pyTrunc 85 : ℤ) : ℚ)
      ∧ format_value (.float 85) "" Option.none = toString (pyTrunc (85 : ℚ)))
    ∧ ((85567 : ℚ)/1000 ≠ ((pyTrunc ((85567 : ℚ)/1000) : ℤ) : ℚ)
      ∧ format_value (.float (85567/1000)) "" Option.none = renderFloat (py_round (85567/1000) 2))
    ∧ (("req/s" : String) ∉ ["percent", "percentunit", "bytes", "decbytes", "bits", "s", "ms", "ns"]
      ∧ unit_suffix "req/s" = " " ++ "req/s")
    ∧ (("req/s" : String) ≠ ""
      ∧ format_value (.int 7) "req/s" Option.none = toString (7 : ℤ) ++ unit_suffix "req/s") := by
  have h85 : (85 : ℚ) = ((pyTrunc 85 : ℤ) : ℚ) := by
    have : pyTrunc (85 : ℚ) = 85 := by
      unfold pyTrunc
      norm_num
      try decide
    rw [this]
    norm_num
  have h85567 : (85567 : ℚ)/1000 ≠ ((pyTrunc ((85567 : ℚ)/1000) : ℤ) : ℚ) := by
    have : pyTrunc ((85567 : ℚ)/1000) = 85 := by
      unfold pyTrunc
      norm_num
      try decide
    rw [this]
    norm_num
  have hmem : ("req/s" : String) ∉ ["percent", "percentunit", "bytes", "decbytes", "bits", "s", "ms", "ns"] := by
    decide
  exact ⟨⟨h85, format_value_spec.2.2.1 85 h85⟩,
    ⟨h85567, format_value_spec.2.2.2.1 _ h85567⟩,
    ⟨hmem, format_value_spec.2.2.2.2.2.1 "req/s" hmem⟩,
    ⟨by decide, format_value_spec.2.2.2.2.2.2.1 7 "req/s" (by decide)⟩⟩

/-! ## C2 -/

theorem allVariables_ne_empty (vmap : List (String × String)) :
    (allVariables vmap).isEmpty = false := by
  unfold allVariables dict_merge GRAFANA_BUILTINS
  simp

mutual
theorem substVar_eq_map (vmap : List (String × String)) :
    ∀ obj : J,
      substitute_variables obj vmap
        = mapStrLeaves (substitute_string (allVariables vmap)) obj
  | .null => by
      rw [substitute_variables]
      simp [allVariables_ne_empty vmap, mapStrLeaves]
      all_goals exact fun _ h => J.noConfusion h
  | .bool b => by
      rw [substitute_variables]
      simp [allVariables_ne_empty vmap, mapStrLeaves]
      all_goals exact fun _ h => J.noConfusion h
  | .int n => by
      rw [substitute_variables]
      simp [allVariables_ne_empty vmap, mapStrLeaves]
      all_goals exact fun _ h => J.noConfusion h
  | .float q => by
      rw [substitute_variables]
      simp [allVariables_ne_empty vmap, mapStrLeaves]
      all_goals exact fun _ h => J.noConfusion h
  | .str s => by
      rw [substitute_variables]
      simp [allVariables_ne_empty vmap, mapStrLeaves]
  | .arr xs => by
      rw [substitute_variables]
      simp only [allVariables_ne_empty vmap, Bool.false_eq_true, if_false, mapStrLeaves]
      rw [substArr_eq_map vmap xs]
  | .obj kvs => by
      rw [substitute_variables]
      simp only [allVariables_ne_empty vmap, Bool.false_eq_true, if_false, mapStrLeaves]
      rw [substObj_eq_map vmap kvs]

theorem substObj_eq_map (vmap : List (String × String)) :
    ∀ kvs : List (String × J),
      substituteObjFields kvs vmap
        = mapStrLeavesObj (substitute_string (allVariables vmap)) kvs
  | [] => rfl
  | (k, v) :: kvs => by
      rw [substituteObjFields, mapStrLeavesObj, substVar_eq_map vmap v, substObj_eq_map vmap kvs]

theorem substArr_eq_map (vmap : List (String × String)) :
    ∀ xs : List J,
      substituteArrItems xs vmap
        = mapStrLeavesArr (substitute_string (allVariables vmap)) xs
  | [] => rfl
  | x :: xs => by
      rw [substituteArrItems, mapStrLeavesArr, substVar_eq_map vmap x, substArr_eq_map vmap xs]
end

theorem lookup_append_my {β : Type} (k : String) :
    ∀ (l₁ l₂ : List (String × β)),
      (l₁ ++ l₂).lookup k = ((l₁.lookup k).orElse fun _ => l₂.lookup k)
  | [], l₂ => rfl
  | (k₁, v) :: l₁, l₂ => by
      by_cases hk : k = k₁
      · simp [List.lookup, hk]
      · have hbeq : (k == k₁) = false := by simp [hk]
        simp only [List.cons_append, List.lookup, hbeq]
        exact lookup_append_my k l₁ l₂

theorem lookup_map_merge (b : List (String × String)) :
    ∀ (a : List (String × String)) (nm : String),
      (a.map fun p =>
          match b.lookup p.1 with
          | some w => (p.1, w)
          | Option.none => p).lookup nm
        = (a.lookup nm).map fun v =>
            match b.lookup nm with
            | some w => w
            | Option.none => v
  | [], _ => rfl
  | (k, v) :: a, nm => by
      by_cases hk : nm = k
      · subst hk
        cases hb : b.lookup nm with
        | none => simp [List.lookup, hb]
        | some w => simp [List.lookup, hb]
      · have hbeq : (nm == k) = false := by simp [hk]
        cases hb : b.lookup k with
        | none => simp only [List.map, List.lookup, hb, hbeq, lookup_map_merge b a nm]
        | some w => simp only [List.map, List.lookup, hb, hbeq, lookup_map_merge b a nm]

theorem lookup_filter_notin (a : List (String × String)) :
    ∀ (b : List (String × String)) (nm : String), (a.lookup nm).isSome →
      (b.filter fun p => (a.lookup p.1).isNone).lookup nm = Option.none
  | [], _, _ => rfl
  | (k, w) :: b, nm, h => by
      by_cases hk : nm = k
      · subst hk
        have : ((a.lookup nm).isNone : Bool) = false := by
          cases ha : a.lookup nm with
          | none => rw [ha] at h; simp at h
          | some v => simp
        simp only [List.filter, this, lookup_filter_notin a b nm h]
      · have hbeq : (nm == k) = false := by simp [hk]
        cases hfilt : ((a.lookup k).isNone : Bool) with
        | false => simp only [List.filter, hfilt, lookup_filter_notin a b nm h]
        | true =>
            simp only [List.filter, hfilt, List.lookup, hbeq,
              lookup_filter_notin a b nm h]

theorem dict_merge_lookup (b : List (String × String)) (a : List (String × String))
    (nm : String) (h : (a.lookup nm).isSome) :
    (dict_merge a b).lookup nm = ((b.lookup nm).orElse fun _ => a.lookup nm) := by
  unfold dict_merge
  rw [lookup_append_my, lookup_map_merge, lookup_filter_notin a b nm h]
  cases ha : a.lookup nm with
  | none => rw [ha] at h; simp at h
  | some v =>
      cases hb : b.lookup nm with
      | none => simp
      | some w => simp

/-- C2 (amended): interpolation rewrites every string leaf by folding over
the merged variable dictionary in order — the six built-ins in declaration
order, then user variables, a user value overriding a built-in in place —
replacing, for each variable in turn, all occurrences of `${name}` and then
of `$name` with its stringified value; the built-ins are always present in
the merged dictionary and a user variable with a built-in's name overrides
it.  (Because the replacements are sequential, a variable whose `$name` form
is a proper prefix of a later variable's reference captures it: see the
counterexample.) -/
theorem substitute_variables_sequential_spec :
    (∀ (obj : J) (vmap : List (String × String)),
        substitute_variables obj vmap
          = mapStrLeaves (substitute_string (allVariables vmap)) obj)
    ∧ (∀ (vmap : List (String × String)) (nm : String),
        (GRAFANA_BUILTINS.lookup nm).isSome →
        (allVariables vmap).lookup nm
          = ((vmap.lookup nm).orElse fun _ => GRAFANA_BUILTINS.lookup nm))
    ∧ substitute_variables (J.obj [("datasource", J.str "$ds")]) [("ds", "uid-1")]
        = J.obj [("datasource", J.str "uid-1")] :=
  ⟨fun obj vmap => substVar_eq_map vmap obj,
   fun vmap nm h => dict_merge_lookup vmap GRAFANA_BUILTINS nm h,
   rfl⟩

/-- Witness for C2, instantiating the built-in membership hypothesis at
`__interval` with a user override. -/
theorem substitute_variables_sequential_spec_witness :
    (GRAFANA_BUILTINS.lookup "__interval").isSome = true
    ∧ (allVariables [("__interval", "30s")]).lookup "__interval"
        = (([("__interval", "30s")].lookup "__interval").orElse
            fun _ => GRAFANA_BUILTINS.lookup "__interval") :=
  ⟨by decide,
   substitute_variables_sequential_spec.2.1 [("__interval", "30s")] "__interval" (by decide)⟩

/-- C2 counterexample: the claim "every occurrence of `$name` is replaced by
the variable's value" fails at the string `"$__interval_ms"` with no user
variables: the built-in `__interval` (value `"1m"`) is substituted first and
captures the occurrence, producing `"1m_ms"` instead of `"60000"`. -/
theorem substitute_variables_interval_ms_counterexample :
    substitute_variables (J.str "$__interval_ms") [] = J.str "1m_ms"
    ∧ J.str "1m_ms" ≠ J.str "60000" :=
  ⟨rfl, fun h => absurd (J.str.inj h) (by decide)⟩

/-! ## C5 -/

/-- A raw frame payload carrying name, fields and values, each either in its
nested location (`schema.name`, `schema.fields`, `data.values`) or at the
payload root, per the three flags.  All flags on is Shape A, all off is
Shape B; mixed flags are mixed-shape payloads. -/
def mkFramePayload (nName nFields nValues : Bool) (n : String) (f : List J)
    (v : List (List J)) : J :=
  J.obj
    ((if nName || nFields then
        [("schema", J.obj ((if nName then [("name", J.str n)] else []) ++
            (if nFields then [("fields", J.arr f)] else [])))]
      else []) ++
     (if nValues then [("data", J.obj [("values", J.arr (v.map J.arr))])] else []) ++
     (if nName then [] else [("name", J.str n)]) ++
     (if nFields then [] else [("fields", J.arr f)]) ++
     (if nValues then [] else [("values", J.arr (v.map J.arr))]))

/-- C5: `DataFrame.from_api_response` reconstructs the same name, fields and
values from a Shape A payload (all parts nested), a Shape B payload (all
parts at the root), or any mixture — each of the three parts falls back from
the nested location to the root location independently of the others. -/
theorem frame_parse_shape_transparent :
    ∀ (nName nFields nValues : Bool) (n : String) (f : List J) (v : List (List J)),
      frame_from_api_response (mkFramePayload nName nFields nValues n f v)
        = { name := J.str n, fields := J.arr f, values := J.arr (v.map J.arr) } := by
  intro nName nFields nValues n f v
  have hname : pyOr (J.str n) (J.str "") = J.str n := by
    by_cases hn : n = "" <;> simp [pyOr, J.truthy, hn]
  have hfields : pyOr (J.arr f) (J.arr []) = J.arr f := by
    cases f <;> simp [pyOr, J.truthy]
  have hvalues : pyOr (J.arr (v.map J.arr)) (J.arr []) = J.arr (v.map J.arr) := by
    cases v <;> simp [pyOr, J.truthy]
  cases nName <;> cases nFields <;> cases nValues <;>
    simp [mkFramePayload, frame_from_api_response, jGetD, jGet, List.lookup,
      hname, hfields, hvalues, pyOr, J.truthy] <;>
    exact fun h => h.symm

/-! ## C8 -/

theorem findSome?_append_my {α β : Type} (f : α → Option β) :
    ∀ l₁ l₂ : List α,
      (l₁ ++ l₂).findSome? f = ((l₁.findSome? f).orElse fun _ => l₂.findSome? f)
  | [], l₂ => rfl
  | a :: l₁, l₂ => by
      cases h : f a <;>
        simp [List.findSome?_cons, h, findSome?_append_my f l₁ l₂, Option.orElse]

theorem qr_fold_spec :
    ∀ (entries : List (String × J)) (accF : List RawFrame) (accE : Option J),
      entries.foldl queryResultStep (accF, accE)
        = (accF ++
            ((entries.filter fun p => (jGet p.2 "error").isNone).map
              (fun p => (jFrames p.2).map
                fun fd => withRefIdName p.1 (frame_from_api_response fd))).flatten,
           ((entries.reverse.findSome? fun p => jGet p.2 "error").orElse fun _ => accE)) := by
  intro entries
  induction entries with
  | nil => intro accF accE; simp [Option.orElse]
  | cons p l ih =>
      intro accF accE
      rw [List.foldl_cons]
      cases h : jGet p.2 "error" with
      | none =>
          have hstep : queryResultStep (accF, accE) p
              = (accF ++ (jFrames p.2).map
                  (fun fd => withRefIdName p.1 (frame_from_api_response fd)), accE) := by
            simp [queryResultStep, h]
          rw [hstep, ih]
          have hfs := findSome?_append_my (fun p : String × J => jGet p.2 "error") l.reverse [p]
          cases hl : l.reverse.findSome? (fun p => jGet p.2 "error") <;>
            simp [List.reverse_cons, hfs, hl, List.filter_cons, h, List.findSome?,
              Option.orElse, List.append_assoc]
      | some e =>
          have hstep : queryResultStep (accF, accE) p = (accF, some e) := by
            simp [queryResultStep, h]
          rw [hstep, ih]
          have hfs := findSome?_append_my (fun p : String × J => jGet p.2 "error") l.reverse [p]
          cases hl : l.reverse.findSome? (fun p => jGet p.2 "error") <;>
            simp [List.reverse_cons, hfs, hl, List.filter_cons, h, List.findSome?,
              Option.orElse, List.append_assoc]

/-- A sample response: query `A` reports an error and carries a frame, query
`B` carries one nameless frame. -/
def sampleResponse : J :=
  J.obj [("results", J.obj
    [("A", J.obj [("error", J.str "boom"),
                  ("frames", J.arr [J.obj [("name", J.str "ignored")]])]),
     ("B", J.obj [("frames", J.arr
        [J.obj [("fields", J.arr []), ("values", J.arr [])]])])])]

/-- C8: `QueryResult.from_api_response` records the last per-query error seen
(an entry carrying an error contributes no frames), collects the frames of
every error-free entry in iteration order, and assigns the ref id to any
parsed frame whose name is empty; on the sample response the error of `A`
wins, `A`'s frames are skipped and `B`'s nameless frame is named `"B"`. -/
theorem query_result_from_response_spec :
    (∀ entries : List (String × J),
      query_result_from_api_response (J.obj [("results", J.obj entries)])
        = { frames :=
              ((entries.filter fun p => (jGet p.2 "error").isNone).map
                (fun p => (jFrames p.2).map
                  fun fd => withRefIdName p.1 (frame_from_api_response fd))).flatten,
            error := entries.reverse.findSome? fun p => jGet p.2 "error" })
    ∧ query_result_from_api_response sampleResponse
        = { frames := [{ name := J.str "B", fields := J.arr [], values := J.arr [] }],
            error := some (J.str "boom") } := by
  constructor
  · intro entries
    unfold query_result_from_api_response
    show ({ frames := (List.foldl queryResultStep ([], Option.none) entries).1,
            error := (List.foldl queryResultStep ([], Option.none) entries).2 } : RawQueryResult) = _
    rw [qr_fold_spec entries [] Option.none]
    simp only [List.nil_append]
    cases hl : entries.reverse.findSome? (fun p => jGet p.2 "error") <;> simp [hl, Option.orElse]
  · rfl

/-! ## C10 -/

theorem foldl_append_if {α β : Type} (P : α → Bool) (g : α → β) :
    ∀ (l : List α) (acc : List β),
      l.foldl (fun acc2 x => if P x then acc2 ++ [g x] else acc2) acc
        = acc ++ l.filterMap fun x => if P x then some (g x) else Option.none
  | [], acc => by simp
  | x :: l, acc => by
      by_cases h : P x <;>
        simp [List.foldl_cons, h, foldl_append_if P g l, List.filterMap_cons]

/-- The per-column bar selector of the bar-gauge loop. -/
def barOfColumn (panel : Panel) (nv : String × List PyVal) : Option Bar :=
  if (nv.2.getLast?).getD PyVal.none != PyVal.none
      && pyIsNum ((nv.2.getLast?).getD PyVal.none) then
    some (mk_bar panel nv.1 ((nv.2.getLast?).getD PyVal.none))
  else Option.none

theorem bargauge_bars_filterMap (p : Panel) (qr : QueryResult) :
    bargauge_bars p qr
      = (qr.frames.map fun fr => fr.get_value_fields.filterMap (barOfColumn p)).flatten := by
  unfold bargauge_bars
  have inner : ∀ (fr : DataFrame) (acc : List Bar),
      fr.get_value_fields.foldl
        (fun acc2 nv =>
          let value := (nv.2.getLast?).getD PyVal.none
          if value != PyVal.none && pyIsNum value then acc2 ++ [mk_bar p nv.1 value]
          else acc2)
        acc
      = acc ++ fr.get_value_fields.filterMap (barOfColumn p) := by
    intro fr acc
    have := foldl_append_if
      (fun nv : String × List PyVal =>
        (nv.2.getLast?).getD PyVal.none != PyVal.none
          && pyIsNum ((nv.2.getLast?).getD PyVal.none))
      (fun nv => mk_bar p nv.1 ((nv.2.getLast?).getD PyVal.none))
      fr.get_value_fields acc
    exact this
  have outer : ∀ (frames : List DataFrame) (acc : List Bar),
      frames.foldl
        (fun acc fr =>
          fr.get_value_fields.foldl
            (fun acc2 nv =>
              let value := (nv.2.getLast?).getD PyVal.none
              if value != PyVal.none && pyIsNum value then acc2 ++ [mk_bar p nv.1 value]
              else acc2)
            acc)
        acc
      = acc ++ (frames.map fun fr => fr.get_value_fields.filterMap (barOfColumn p)).flatten := by
    intro frames
    induction frames with
    | nil => intro acc; simp
    | cons fr frames ih =>
        intro acc
        rw [List.foldl_cons, inner fr acc, ih]
        simp [List.append_assoc]
  exact outer qr.frames []

theorem bargauge_transform_bars (p : Panel) (qr : QueryResult) (now : String) :
    (bargauge_transform p qr now).bars = bargauge_bars p qr := by
  unfold bargauge_transform
  cases hb : bargauge_bars p qr <;> simp [hb]

/-- C10: the bar-gauge transformer emits a bar exactly for the non-time value
columns whose last element is a non-null value passing the
`isinstance(value, (int, float))` check (an empty column, or one whose last
element is null or a string, contributes no bar), so every entry of `bars`
carries a numeric value. -/
theorem bargauge_bars_numeric :
    (∀ (p : Panel) (qr : QueryResult) (now : String),
        (bargauge_transform p qr now).bars
          = (qr.frames.map fun fr => fr.get_value_fields.filterMap (barOfColumn p)).flatten)
    ∧ (∀ (p : Panel) (qr : QueryResult) (now : String) (b : Bar),
        b ∈ (bargauge_transform p qr now).bars → pyIsNum b.value = true) := by
  have h1 : ∀ (p : Panel) (qr : QueryResult) (now : String),
      (bargauge_transform p qr now).bars
        = (qr.frames.map fun fr => fr.get_value_fields.filterMap (barOfColumn p)).flatten := by
    intro p qr now
    rw [bargauge_transform_bars, bargauge_bars_filterMap]
  refine ⟨h1, fun p qr now b hb => ?_⟩
  rw [h1 p qr now] at hb
  simp only [List.mem_flatten, List.mem_map] at hb
  obtain ⟨l, ⟨fr, _, rfl⟩, hbl⟩ := hb
  simp only [List.mem_filterMap] at hbl
  obtain ⟨nv, _, hif⟩ := hbl
  unfold barOfColumn at hif
  by_cases hc : ((nv.2.getLast?).getD PyVal.none != PyVal.none
      && pyIsNum ((nv.2.getLast?).getD PyVal.none)) = true
  · rw [if_pos hc] at hif
    have := (Bool.and_eq_true _ _).mp hc
    have hval : b = mk_bar p nv.1 ((nv.2.getLast?).getD PyVal.none) :=
      (Option.some.inj hif).symm
    rw [hval]
    exact this.2
  · rw [if_neg hc] at hif
    cases hif

/-- A frame with one value column whose last element is the integer 50. -/
def barFrame : DataFrame :=
  { name := "A",
    fields := [{ name := some "cpu", type := Option.none, labels := [] }],
    values := [[PyVal.int 50]] }

/-- A one-frame query result for the bar-gauge witness. -/
def barQuery : QueryResult := { frames := [barFrame], error := Option.none }

/-- Witness for C10: on `barQuery` the single bar is in the output and the
theorem instantiates to its numeric value. -/
theorem bargauge_bars_numeric_witness :
    (mk_bar plainPanel "cpu" (PyVal.int 50)) ∈ (bargauge_transform plainPanel barQuery "t").bars
    ∧ pyIsNum (mk_bar plainPanel "cpu" (PyVal.int 50)).value = true := by
  have hmem : (mk_bar plainPanel "cpu" (PyVal.int 50))
      ∈ (bargauge_transform plainPanel barQuery "t").bars := by
    rw [show (bargauge_transform plainPanel barQuery "t").bars
        = [mk_bar plainPanel "cpu" (PyVal.int 50)] from rfl]
    exact List.mem_singleton_self _
  exact ⟨hmem, bargauge_bars_numeric.2 plainPanel barQuery "t" _ hmem⟩

/-! ## C6 -/

/-- A non-time field named `cpu` carrying the Prometheus label
`job="api"`. -/
def tsField : FrameField :=
  { name := some "cpu", type := Option.none, labels := [("job", "api")] }

/-- A one-frame query result whose only field is `tsField`. -/
def tsQuery : QueryResult :=
  { frames := [{ name := "A", fields := [tsField], values := [[PyVal.int 1]] }],
    error := Option.none }

/-- C6 divergence: the time-series transformer reads its label key from the
option named `"label"` (`timeseries.py` line 27), not from the documented
`label_key` option its caller supplies (`api.py` line 156).  With
`label_key = "job"` the emitted series name is the field name `"cpu"`, not
the label value `"api"` the claim requires; only the undocumented `"label"`
option selects the label. -/
theorem timeseries_label_key_ignored :
    ((timeseries_transform plainPanel tsQuery [("label_key", "job")] "t").series.map
        fun s => s.name) = ["cpu"]
    ∧ ((timeseries_transform plainPanel tsQuery [("label", "job")] "t").series.map
        fun s => s.name) = ["api"]
    ∧ ("cpu" : String) ≠ "api" :=
  ⟨rfl, rfl, by decide⟩

/-! ## C7 -/

/-- C7: the table transformer takes the multi-frame Prometheus path exactly
when more than one frame exists and the first frame has a labelled non-time
field; with a non-empty frame list failing that conjunction — in particular
with exactly one frame, labelled or not — it takes the standard single-frame
path. -/
theorem table_path_selection :
    ∀ (p : Panel) (qr : QueryResult) (kwargs : List (String × String)) (now : String),
      (1 < qr.frames.length ∧ is_prometheus_table_format qr = true →
        ((table_transform p qr kwargs now).columns, (table_transform p qr kwargs now).rows)
          = transform_prometheus_table qr p.get_excluded_fields p.get_field_renames kwargs)
      ∧ (qr.frames ≠ [] → ¬(1 < qr.frames.length ∧ is_prometheus_table_format qr = true) →
        ((table_transform p qr kwargs now).columns, (table_transform p qr kwargs now).rows)
          = transform_standard_table qr p.get_excluded_fields p.get_field_renames)
      ∧ (qr.frames.length = 1 →
        ((table_transform p qr kwargs now).columns, (table_transform p qr kwargs now).rows)
          = transform_standard_table qr p.get_excluded_fields p.get_field_renames) := by
  intro p qr kwargs now
  have hstd : qr.frames ≠ [] →
      ¬(1 < qr.frames.length ∧ is_prometheus_table_format qr = true) →
      ((table_transform p qr kwargs now).columns, (table_transform p qr kwargs now).rows)
        = transform_standard_table qr p.get_excluded_fields p.get_field_renames := by
    intro hne h
    have hE : qr.frames.isEmpty = false := by
      cases hq : qr.frames with
      | nil => exact absurd hq hne
      | cons a l => rfl
    have hcond : (decide (1 < qr.frames.length) && is_prometheus_table_format qr) = false := by
      by_cases hl : 1 < qr.frames.length
      · have hp : is_prometheus_table_format qr = false := by
          cases hp : is_prometheus_table_format qr with
          | false => rfl
          | true => exact absurd ⟨hl, hp⟩ h
        simp [hp]
      · simp [hl]
    unfold table_transform
    rw [if_neg (by simp [hE])]
    simp [hcond]
  refine ⟨fun h => ?_, hstd, fun hone => ?_⟩
  · have hE : qr.frames.isEmpty = false := by
      cases hq : qr.frames with
      | nil => rw [hq] at h; simp at h
      | cons a l => rfl
    have hcond : (decide (1 < qr.frames.length) && is_prometheus_table_format qr) = true := by
      simp [h.1, h.2]
    unfold table_transform
    rw [if_neg (by simp [hE])]
    simp [hcond]
  · have hne : qr.frames ≠ [] := by
      intro he
      rw [he] at hone
      simp at hone
    have hno : ¬(1 < qr.frames.length ∧ is_prometheus_table_format qr = true) := by
      intro hcontra
      rw [hone] at hcontra
      exact absurd hcontra.1 (by norm_num)
    exact hstd hne hno

/-- A single frame that carries labels (the boundary the claim singles
out). -/
def labeledQuery : QueryResult :=
  { frames :=
      [{ name := "A",
         fields := [{ name := some "Value", type := Option.none, labels := [("job", "api")] }],
         values := [[PyVal.int 5]] }],
    error := Option.none }

/-- A two-frame labelled query result (the genuine Prometheus shape). -/
def multiQuery : QueryResult :=
  { frames :=
      [{ name := "A",
         fields := [{ name := some "Value", type := Option.none, labels := [("job", "api")] }],
         values := [[PyVal.int 5]] },
       { name := "B",
         fields := [{ name := some "Value", type := Option.none, labels := [("job", "web")] }],
         values := [[PyVal.int 7]] }],
    error := Option.none }

/-- Witness for C7: `labeledQuery` has exactly one frame, that frame carries
labels (so the Prometheus shape test on its own would pass), yet the
transform output equals the standard path's output; the two-frame
`multiQuery` takes the Prometheus path. -/
theorem table_path_selection_witness :
    (labeledQuery.frames.length = 1
      ∧ is_prometheus_table_format labeledQuery = true
      ∧ ((table_transform plainPanel labeledQuery [] "t").columns,
          (table_transform plainPanel labeledQuery [] "t").rows)
          = transform_standard_table labeledQuery plainPanel.get_excluded_fields
              plainPanel.get_field_renames)
    ∧ ((table_transform plainPanel labeledQuery [] "t").columns,
        (table_transform plainPanel labeledQuery [] "t").rows)
        = transform_standard_table labeledQuery plainPanel.get_excluded_fields
            plainPanel.get_field_renames
    ∧ ((table_transform plainPanel multiQuery [] "t").columns,
        (table_transform plainPanel multiQuery [] "t").rows)
        = transform_prometheus_table multiQuery plainPanel.get_excluded_fields
            plainPanel.get_field_renames [] :=
  ⟨⟨rfl, rfl, (table_path_selection plainPanel labeledQuery [] "t").2.2 rfl⟩,
   (table_path_selection plainPanel labeledQuery [] "t").2.1 (by decide)
     (fun h => absurd h.1 (by decide)),
   (table_path_selection plainPanel multiQuery [] "t").1 ⟨by decide, rfl⟩⟩
